import Mathlib

/-!
Shallow embedding of `pdnstui.py` (PowerDNS TUI manager).

The program is a thin CRUD client: a `PDNSManager` gateway wrapping remote
API calls, a zone aggregation screen, a record screen per zone, and modal
forms for the mutations.  The embedding below models:

* the Python string operations the code uses (`endswith`, `in`, `lower`,
  `int(...)`) over `String` via its `data` character list;
* the gateway operations `connect`, `get_zones`, `get_zone`, `create_zone`,
  `delete_zone`, with each underlying transport call's outcome supplied as
  an explicit `Except String _` input (an `Except.error e` models the
  transport call raising an exception whose `str` is `e`);
* the zone aggregation (`ZonesScreen.load_zones`, `filter_zones`) with the
  displayed table modeled as a list of rendered rows;
* the record mutation callbacks (`on_create_record_result`,
  `on_edit_record_result`, `on_delete_record_result`) modeled as functions
  from the form result to the record-set list handed to the remote call
  (`none` when no submission happens);
* the modal form button handlers with their validation.
-/

/-- Model of Python `s.endswith(suf)` (modeled on the character list of the string). -/
def pyEndsWith (s suf : String) : Bool :=
  List.isSuffixOf suf.data s.data

/-- Bool-valued infix test over lists: `needle` occurs contiguously in the
haystack.  Used to model Python's `sub in s` on strings. -/
def isInfixB (needle : List Char) : List Char → Bool
  | [] => needle.isEmpty
  | c :: rest => needle.isPrefixOf (c :: rest) || isInfixB needle rest

/-- Model of Python `sub in s` for strings: substring containment. -/
def pyContains (s sub : String) : Bool :=
  isInfixB sub.data s.data

/-- Model of Python `s.lower()` (ASCII case folding, which is all the program needs:
zone names, kinds and server labels). -/
def pyLower (s : String) : String :=
  ⟨s.data.map Char.toLower⟩

/-- Value of a nonempty run of decimal digits, left to right; `none` as soon
as a non-digit character is met. -/
def digitsValAux : List Char → Nat → Option Nat
  | [], acc => some acc
  | c :: rest, acc =>
    if c.isDigit then digitsValAux rest (acc * 10 + (c.toNat - 48)) else none

/-- Model of Python `int(s)` on an already-stripped string, as the record forms use it:
an optional sign followed by one or more decimal digits yields the integer,
anything else raises `ValueError` (modeled as `none`).  (Python's underscore
digit grouping is not used by any input this program feeds to `int`.) -/
def pyInt (s : String) : Option Int :=
  match s.data with
  | [] => none
  | '+' :: rest =>
    match rest with
    | [] => none
    | _ => (digitsValAux rest 0).map Int.ofNat
  | '-' :: rest =>
    match rest with
    | [] => none
    | _ => (digitsValAux rest 0).map (fun n => -(n : Int))
  | l => (digitsValAux l 0).map Int.ofNat

/-- A record-set as submitted to the remote API (the `RRSet(...)` payloads the
program constructs).  `ttl = none` models the call sites that omit the `ttl`
argument, leaving it to the library default. -/
structure RRSet where
  name : String
  rtype : String
  records : List (String × Bool)
  ttl : Option Int
deriving DecidableEq, Repr

/-- One record-set as it appears inside a remote zone detail document
(`rrset` fields `name`, `type`, `ttl` and `records`, each record a pair of content and disabled flag). -/
structure RRSetDetail where
  name : String
  rtype : String
  ttl : Int
  records : List (String × Bool)
deriving DecidableEq, Repr

/-- The optional fields of a remote zone detail document that `load_zones`
reads with `details.get(..., default)`. -/
structure ZoneDetails where
  kind : Option String
  serial : Option Int
  rrsets : Option (List RRSetDetail)
  notified_serial : Option Int
deriving DecidableEq, Repr

/-- A zone as returned by the remote zone list (`zone.name` plus its detail
document). -/
structure RemoteZone where
  name : String
  details : ZoneDetails
deriving DecidableEq, Repr

/-! Section: server gateway (`PDNSManager`).

Each method's underlying transport call is an explicit `Except String _`
input; `Except.error e` models the call raising an exception with message
`e`.  The `connected` flag and the `api.servers` fetch of `connect` are
threaded explicitly. -/

/-- Model of `PDNSManager.connect`: fetches `api.servers` and takes the first entry;
an empty list raises `No servers found`.  Any exception inside the `try` is
re-raised as `Failed to connect to <name>: <cause>`. -/
def connect (name : String) (serversCall : Except String (List Unit)) :
    Except String Unit :=
  match serversCall with
  | .error e => .error ("Failed to connect to " ++ name ++ ": " ++ e)
  | .ok [] => .error ("Failed to connect to " ++ name ++ ": No servers found")
  | .ok (_ :: _) => .ok ()

/-- Model of the `if not self.connected: self.connect()` preamble shared by every
gateway operation: a no-op when already connected, otherwise `connect`
(whose failure propagates to the caller already wrapped by `connect`). -/
def ensure_connect (connected : Bool) (name : String)
    (serversCall : Except String (List Unit)) : Except String Unit :=
  if connected then .ok () else connect name serversCall

/-- Model of `PDNSManager.get_zones`: implicit connect, then the zone list fetch
wrapped by `try/except` into `Failed to get zones: <cause>`. -/
def get_zones (connected : Bool) (name : String)
    (serversCall : Except String (List Unit))
    (zonesCall : Except String (List RemoteZone)) :
    Except String (List RemoteZone) :=
  match ensure_connect connected name serversCall with
  | .error e => .error e
  | .ok _ =>
    match zonesCall with
    | .error e => .error ("Failed to get zones: " ++ e)
    | .ok zs => .ok zs

/-- Model of `PDNSManager.get_zone`: implicit connect, then
`return self.api_server.get_zone(zone_id)` — the source has no `try/except`
around this call, so its outcome is returned/propagated as is. -/
def get_zone (connected : Bool) (name : String)
    (serversCall : Except String (List Unit))
    (zoneCall : Except String RemoteZone) : Except String RemoteZone :=
  match ensure_connect connected name serversCall with
  | .error e => .error e
  | .ok _ => zoneCall

/-- Model of `date.today().strftime("%Y%m%d")` for a given date (4-digit year,
zero-padded month and day). -/
def dateYmd (y m d : Nat) : String :=
  toString y ++ (if m < 10 then "0" ++ toString m else toString m)
    ++ (if d < 10 then "0" ++ toString d else toString d)

/-- The serial `create_zone` computes: `strftime("%Y%m%d00")`. -/
def strftimeYmd00 (y m d : Nat) : String :=
  dateYmd y m d ++ "00"

/-- Days in a month of the (proleptic) Gregorian calendar. -/
def days_in_month (y m : Nat) : Nat :=
  if m = 2 then
    if (y % 4 = 0 ∧ ¬y % 100 = 0) ∨ y % 400 = 0 then 29 else 28
  else if m = 4 ∨ m = 6 ∨ m = 9 ∨ m = 11 then 30
  else 31

/-- The Gregorian day after a given civil date `(y, m, d)`. -/
def gregorian_next_day : Nat × Nat × Nat → Nat × Nat × Nat
  | (y, m, d) =>
    if d < days_in_month y m then (y, m, d + 1)
    else if m < 12 then (y, m + 1, 1)
    else (y + 1, 1, 1)

/-- The Gregorian day before a given civil date `(y, m, d)`. -/
def gregorian_prev_day : Nat × Nat × Nat → Nat × Nat × Nat
  | (y, m, d) =>
    if 1 < d then (y, m, d - 1)
    else if 1 < m then (y, m - 1, days_in_month y (m - 1))
    else (y - 1, 12, 31)

/-- Model of Python `date.today()`: the current *local* civil date, i.e. the
current UTC date shifted by the environment's UTC offset.  The instant is
given as the UTC date `(y, m, d)`, the UTC minute of day (`0 ≤ _ < 1440`),
and the UTC offset in minutes (between -24h and +24h); the local date is the
UTC date, its predecessor, or its successor, depending on whether the shifted
minute of day underflows or overflows the day. -/
def today_local (y m d minuteOfDay : Nat) (tzOffset : Int) :
    Nat × Nat × Nat :=
  let t : Int := (minuteOfDay : Int) + tzOffset
  if t < 0 then gregorian_prev_day (y, m, d)
  else if 1440 ≤ t then gregorian_next_day (y, m, d)
  else (y, m, d)

/-- The zone-creation payload handed to `api_server.create_zone(...)`. -/
structure ZoneCreatePayload where
  name : String
  kind : String
  rrsets : List RRSet
  nameservers : List String
deriving DecidableEq, Repr

/-- The payload `PDNSManager.create_zone` builds: a default SOA record-set
with serial `strftime("%Y%m%d00")` of the current date `(y, m, d)`, plus the
given nameservers (`nameservers or []`). -/
def create_zone_payload (y m d : Nat) (name kind : String)
    (nameservers : Option (List String)) : ZoneCreatePayload :=
  let serial := strftimeYmd00 y m d
  let soa_content := "ns1." ++ name ++ " hostmaster." ++ name ++ " "
    ++ serial ++ " 28800 7200 604800 86400"
  { name := name
  , kind := kind
  , rrsets := [{ name := name, rtype := "SOA"
               , records := [(soa_content, false)], ttl := some 86400 }]
  , nameservers := nameservers.getD [] }

/-- The payload `PDNSManager.create_zone` builds when invoked at a given
instant: the date fed into the serial is `date.today()`, the local civil
date at that instant (`today_local`), not the UTC date. -/
def create_zone_payload_at (utcY utcM utcD minuteOfDay : Nat)
    (tzOffset : Int) (name kind : String)
    (nameservers : Option (List String)) : ZoneCreatePayload :=
  let today := today_local utcY utcM utcD minuteOfDay tzOffset
  create_zone_payload today.1 today.2.1 today.2.2 name kind nameservers

/-- Model of `PDNSManager.create_zone`: implicit connect, build the payload, submit;
a failing submission is wrapped into `Failed to create zone: <cause>`. -/
def create_zone (connected : Bool) (mname : String)
    (serversCall : Except String (List Unit)) (y m d : Nat)
    (name kind : String) (nameservers : Option (List String))
    (createCall : ZoneCreatePayload → Except String Unit) :
    Except String Unit :=
  match ensure_connect connected mname serversCall with
  | .error e => .error e
  | .ok _ =>
    match createCall (create_zone_payload y m d name kind nameservers) with
    | .error e => .error ("Failed to create zone: " ++ e)
    | .ok u => .ok u

/-- Model of `PDNSManager.delete_zone`: implicit connect, then the delete call wrapped
into `Failed to delete zone: <cause>`. -/
def delete_zone (connected : Bool) (name : String)
    (serversCall : Except String (List Unit))
    (deleteCall : Except String Unit) : Except String Unit :=
  match ensure_connect connected name serversCall with
  | .error e => .error e
  | .ok _ =>
    match deleteCall with
    | .error e => .error ("Failed to delete zone: " ++ e)
    | .ok _ => .ok ()

/-- The URL normalization inside `PDNSManager.connect`: append `/api/v1`
unless the URL already ends with `/api/v1`, without doubling a trailing
slash. -/
def connect_api_url (url : String) : String :=
  if pyEndsWith url "/api/v1" then url
  else if pyEndsWith url "/" then url ++ "api/v1"
  else url ++ "/api/v1"

/-- The normalization rule as the specification words it: append the segment
`api/v1` exactly when the URL does not already end with `api/v1`, inserting
a separating slash exactly when the URL does not already end with a slash.
(Stated for comparison with `connect_api_url`, which is the source's rule.) -/
def spec_api_url (url : String) : String :=
  if pyEndsWith url "api/v1" then url
  else if pyEndsWith url "/" then url ++ "api/v1"
  else url ++ "/api/v1"

/-! Section: zone aggregation (`ZonesScreen`). -/

/-- The display-relevant fields of a `PDNSManager` that `ZonesScreen` reads
(`manager.name`, `manager.fqdn`). -/
structure Manager where
  name : String
  fqdn : String
deriving DecidableEq, Repr

/-- The `zone_data` dictionary `load_zones` builds for each remote zone.
`serial` and `notified_serial` are stored dynamically typed in the source
(number or the string `N/A`); the embedding stores their rendered form,
which is all the screen ever uses. -/
structure ZoneSummary where
  manager : Manager
  id : String
  name : String
  kind : String
  serial : String
  records : Nat
  notified_serial : String
deriving DecidableEq, Repr

/-- The `zone_data` built from one remote zone: `id` and `name` both from
`zone.name`, the optional detail fields defaulting to `N/A`, and `records`
the record-set count (0 when the detail lacks `rrsets`). -/
def zone_summary (m : Manager) (z : RemoteZone) : ZoneSummary :=
  { manager := m
  , id := z.name
  , name := z.name
  , kind := z.details.kind.getD "N/A"
  , serial := match z.details.serial with
      | some n => toString n
      | none => "N/A"
  , records := (z.details.rrsets.getD []).length
  , notified_serial := match z.details.notified_serial with
      | some n => toString n
      | none => "N/A" }

/-- Model of `ZonesScreen.load_zones`: iterate the managers in configured order; each
manager's `get_zones()` outcome is the second component of its pair.  A
successful manager contributes its zones (in order) to `all_zones`; a failing
one contributes one warning notification and nothing else; the loop always
runs to completion.  Returns `(all_zones, warnings)`. -/
def load_zones :
    List (Manager × Except String (List RemoteZone)) →
    List ZoneSummary × List String
  | [] => ([], [])
  | (m, .ok zones) :: rest =>
    (zones.map (zone_summary m) ++ (load_zones rest).1, (load_zones rest).2)
  | (m, .error e) :: rest =>
    ((load_zones rest).1,
     ("Error loading zones from " ++ m.name ++ ": " ++ e) :: (load_zones rest).2)

/-- The row `add_row(...)` appends to the zones table for one zone. -/
def render_zone_row (z : ZoneSummary) : List String :=
  [z.manager.name, z.manager.fqdn, z.name, z.kind, z.serial,
   toString z.records, z.notified_serial]

/-- The match `filter_zones` tests for one zone: the lowered search term is
a substring of the lowered name, kind, manager name or manager FQDN. -/
def zone_matches (search_lower : String) (z : ZoneSummary) : Bool :=
  pyContains (pyLower z.name) search_lower
    || pyContains (pyLower z.kind) search_lower
    || pyContains (pyLower z.manager.name) search_lower
    || pyContains (pyLower z.manager.fqdn) search_lower

/-- The `ZonesScreen` state the search interacts with: the loaded
`all_zones` list and the rendered table rows. -/
structure ZonesView where
  all_zones : List ZoneSummary
  table : List (List String)
deriving DecidableEq, Repr

/-- Model of `ZonesScreen.filter_zones`: clear the table and re-add the rows of the
zones matching the search term; `all_zones` itself is not touched. -/
def filter_zones (v : ZonesView) (search_term : String) : ZonesView :=
  let search_lower := pyLower search_term
  { v with
    table := (v.all_zones.filter (zone_matches search_lower)).map render_zone_row }

/-- Model of how `ZonesScreen.on_delete_zone_result` keys the gateway call by
`zone['id']`. -/
def delete_zone_arg (zone : ZoneSummary) : String := zone.id

/-- Model of how `ZonesScreen.on_data_table_row_selected` keys the details screen by
`zone['id']`. -/
def details_screen_zone_id (zone : ZoneSummary) : String := zone.id

/-! Section: modal forms. -/

/-- Outcome of a modal's submit-button handler: either the dialog is
dismissed with a result (which triggers the screen callback), or a
validation notification is shown and the form stays open (the callback is
never invoked, so nothing is submitted). -/
inductive FormOutcome (α : Type) where
  | dismissed : α → FormOutcome α
  | validationError : String → FormOutcome α
deriving DecidableEq, Repr

/-- Whether the outcome is a validation rejection. -/
def FormOutcome.isRejected : FormOutcome α → Bool
  | .validationError _ => true
  | .dismissed _ => false

/-- The form result the screen callback receives: `some` exactly on a
dismissal with a result. -/
def FormOutcome.toOption : FormOutcome α → Option α
  | .dismissed a => some a
  | .validationError _ => none

/-- The dictionary `CreateRecordModal` dismisses with. -/
structure RecordFormResult where
  name : String
  rtype : String
  content : String
  ttl : Int
deriving DecidableEq, Repr

/-- The dictionary `EditRecordModal` dismisses with. -/
structure EditFormResult where
  content : String
  ttl : Int
deriving DecidableEq, Repr

/-- Model of `CreateRecordModal.on_button_pressed` for the create button, on the
already-stripped field values: name and content must be non-empty, the TTL
must parse as an integer, and only then is the form result produced. -/
def create_record_on_button (name rtype content ttl_str : String) :
    FormOutcome RecordFormResult :=
  if name = "" || content = "" then
    .validationError "Name and content are required"
  else
    match pyInt ttl_str with
    | none => .validationError "TTL must be a number"
    | some ttl => .dismissed { name := name, rtype := rtype
                             , content := content, ttl := ttl }

/-- Model of `EditRecordModal.on_button_pressed` for the save button: content must be
non-empty and the TTL must parse as an integer. -/
def edit_record_on_button (content ttl_str : String) :
    FormOutcome EditFormResult :=
  if content = "" then
    .validationError "Content is required"
  else
    match pyInt ttl_str with
    | none => .validationError "TTL must be a number"
    | some ttl => .dismissed { content := content, ttl := ttl }

/-! Section: record mutation callbacks (`ZoneDetailsScreen`). -/

/-- One row of the flattened record table (`self.all_records` entries; the
opaque back-reference to the owning rrset is not needed by the mutation
payloads, which use the row's own fields). -/
structure RecordRow where
  name : String
  rtype : String
  content : String
  ttl : Int
  disabled : Bool
deriving DecidableEq, Repr

/-- First step of the fully-qualified name in `on_create_record_result`:
the form name joined to the zone name with a dot when the form name is
non-empty, else the zone name alone. -/
def full_name_base (zone_name rname : String) : String :=
  if rname = "" then zone_name else rname ++ "." ++ zone_name

/-- The fully-qualified name `on_create_record_result` computes:
`full_name_base`, then a trailing dot appended when missing. -/
def full_record_name (zone_name rname : String) : String :=
  let full_name := full_name_base zone_name rname
  if pyEndsWith full_name "." then full_name else full_name ++ "."

/-- Model of `ZoneDetailsScreen.on_create_record_result`: given the form result
(`none` when the modal was cancelled or never dismissed) and the outcome of
the `get_zone` refetch, the record-set list handed to
`zone.create_records(...)`, or `none` when nothing is submitted. -/
def on_create_record_result (zoneFetch : Except String Unit)
    (zone_name : String) (result : Option RecordFormResult) :
    Option (List RRSet) :=
  match result with
  | none => none
  | some res =>
    match zoneFetch with
    | .error _ => none
    | .ok _ =>
      some [{ name := full_record_name zone_name res.name
            , rtype := res.rtype
            , records := [(res.content, false)]
            , ttl := some res.ttl }]

/-- Model of `ZoneDetailsScreen.on_edit_record_result`: the record-set list handed to
`zone.create_records(...)` — keyed by the row's original name and type, one
record with the new content and the row's original disabled flag, the new
TTL. -/
def on_edit_record_result (zoneFetch : Except String Unit)
    (result : Option EditFormResult) (record : RecordRow) :
    Option (List RRSet) :=
  match result with
  | none => none
  | some res =>
    match zoneFetch with
    | .error _ => none
    | .ok _ =>
      some [{ name := record.name
            , rtype := record.rtype
            , records := [(res.content, record.disabled)]
            , ttl := some res.ttl }]

/-- Model of `ZoneDetailsScreen.on_delete_record_result`: when the confirm dialog
answered yes, the record-set list handed to `zone.delete_records(...)` —
keyed by the row's name and type, empty record list, `ttl` omitted. -/
def on_delete_record_result (zoneFetch : Except String Unit)
    (confirmed : Bool) (record : RecordRow) : Option (List RRSet) :=
  if confirmed then
    match zoneFetch with
    | .error _ => none
    | .ok _ =>
      some [{ name := record.name, rtype := record.rtype
            , records := [], ttl := none }]
  else none

/-- Sample manager used to instantiate universally quantified results. -/
def sampleManager : Manager := { name := "A", fqdn := "a.example" }

/-- Sample remote zone used to instantiate universally quantified results. -/
def sampleZone : RemoteZone :=
  { name := "example.com."
  , details := { kind := some "Native", serial := some 2024010100
               , rrsets := some [], notified_serial := none } }

/-! Section: helper lemmas. -/

/-- An empty needle occurs in every haystack. -/
theorem isInfixB_nil (l : List Char) : isInfixB [] l = true := by
  cases l <;> simp [isInfixB, List.isPrefixOf]

/-- Python's `"" in s` is true for every string `s`. -/
theorem pyContains_empty_term (s : String) : pyContains s "" = true := by
  have h : "".data = ([] : List Char) := rfl
  simp [pyContains, h, isInfixB_nil]

/-- Lowering the empty string gives the empty string. -/
theorem pyLower_empty : pyLower "" = "" := rfl

/-- Every zone matches the empty search term. -/
theorem zone_matches_empty_term (z : ZoneSummary) :
    zone_matches (pyLower "") z = true := by
  simp [zone_matches, pyLower_empty, pyContains_empty_term]

/-- A rejected form outcome yields no result to the screen callback. -/
theorem toOption_eq_none_of_isRejected {α : Type} (o : FormOutcome α)
    (h : o.isRejected = true) : o.toOption = none := by
  cases o with
  | dismissed a => simp [FormOutcome.isRejected] at h
  | validationError m => rfl

/-! Section: claim theorems. -/

/-- Claim C1, counterexample: a transport failure of the zone fetch inside
`get_zone` propagates with its raw message unchanged — no domain wrapper is
added — while `get_zones` on the same failure does wrap it.  This refutes
the claim that every gateway operation rethrows transport failures as a
domain error embedding the cause. -/
theorem claim_C1_counterexample :
    get_zone true "Default Server" (Except.ok [()]) (Except.error "boom")
      = Except.error "boom"
  ∧ get_zones true "Default Server" (Except.ok [()]) (Except.error "boom")
      = Except.error "Failed to get zones: boom" :=
  ⟨rfl, rfl⟩

/-- Claim C1, amended: `connect`, `get_zones`, `create_zone` and
`delete_zone` catch transport failures and rethrow them as domain errors
whose message embeds the original cause; `get_zone` alone returns the
transport call's outcome unchanged, so its raw failure propagates
unwrapped. -/
theorem claim_C1_amended :
    (∀ nm e, connect nm (Except.error e)
        = Except.error ("Failed to connect to " ++ nm ++ ": " ++ e))
  ∧ (∀ nm sc e, get_zones true nm sc (Except.error e)
        = Except.error ("Failed to get zones: " ++ e))
  ∧ (∀ nm sc y m d name kind ns e,
        create_zone true nm sc y m d name kind ns (fun _ => Except.error e)
          = Except.error ("Failed to create zone: " ++ e))
  ∧ (∀ nm sc e, delete_zone true nm sc (Except.error e)
        = Except.error ("Failed to delete zone: " ++ e))
  ∧ (∀ nm sc r, get_zone true nm sc r = r) :=
  ⟨fun _ _ => rfl, fun _ _ _ => rfl, fun _ _ _ _ _ _ _ _ _ => rfl,
   fun _ _ _ => rfl, fun _ _ _ => rfl⟩

/-- Claim C2: for every record row and edit form result, the edit workflow
submits exactly one record-set, keyed by the row's original name and type,
containing exactly one record with the new content, the row's original
disabled flag, and the new TTL. -/
theorem claim_C2 (record : RecordRow) (res : EditFormResult) :
    on_edit_record_result (Except.ok ()) (some res) record
      = some [{ name := record.name, rtype := record.rtype
              , records := [(res.content, record.disabled)]
              , ttl := some res.ttl }] :=
  rfl

/-- Claim C3: once the delete is confirmed, the delete workflow submits a
record-set keyed by the row's original name and type with an empty record
list (its TTL omitted), regardless of the row's content, disabled flag or
TTL; without confirmation nothing is submitted. -/
theorem claim_C3 (record : RecordRow) :
    on_delete_record_result (Except.ok ()) true record
      = some [{ name := record.name, rtype := record.rtype
              , records := [], ttl := none }]
  ∧ on_delete_record_result (Except.ok ()) false record = none :=
  ⟨rfl, rfl⟩

/-- Claim C4: the fully-qualified record name is the form name joined to the
zone name with a dot when the form name is non-empty, else the zone name
alone, with a trailing dot appended exactly when the joined name does not
already end with one; in particular `www` in zone `example.com.` gives
`www.example.com.` and the empty name gives `example.com.`. -/
theorem claim_C4 (zone_name rname : String) :
    (pyEndsWith (full_name_base zone_name rname) "." = true →
        full_record_name zone_name rname = full_name_base zone_name rname)
  ∧ (pyEndsWith (full_name_base zone_name rname) "." = false →
        full_record_name zone_name rname = full_name_base zone_name rname ++ ".")
  ∧ (rname ≠ "" → full_name_base zone_name rname = rname ++ "." ++ zone_name)
  ∧ full_name_base zone_name "" = zone_name
  ∧ full_record_name "example.com." "www" = "www.example.com."
  ∧ full_record_name "example.com." "" = "example.com." := by
  refine ⟨?_, ?_, ?_, ?_, by decide, by decide⟩
  · intro h; simp [full_record_name, h]
  · intro h; simp [full_record_name, h]
  · intro h; simp [full_name_base, h]
  · simp [full_name_base]

/-- Claim C4, witness: both branches of the trailing-dot rule and the
non-empty join, at concrete inputs. -/
theorem claim_C4_witness :
    (pyEndsWith (full_name_base "example.com." "www") "." = true
      ∧ full_record_name "example.com." "www" = full_name_base "example.com." "www")
  ∧ (pyEndsWith (full_name_base "example.com" "www") "." = false
      ∧ full_record_name "example.com" "www" = full_name_base "example.com" "www" ++ ".")
  ∧ ("www" ≠ "" ∧ full_name_base "example.com." "www" = "www" ++ "." ++ "example.com.") :=
  ⟨⟨by decide, (claim_C4 "example.com." "www").1 (by decide)⟩,
   ⟨by decide, (claim_C4 "example.com" "www").2.1 (by decide)⟩,
   ⟨by decide, (claim_C4 "example.com." "www").2.2.1 (by decide)⟩⟩

/-- Claim C5, counterexample: the code computes the serial from
`date.today()`, the *local* date, not the UTC date.  At the UTC instant
2024-06-15 23:30 in an environment with UTC offset +02:00 the local date is
2024-06-16, so the SOA content `create_zone` builds carries serial
`2024061600`, while the claim prescribes the UTC-date serial
`strftimeYmd00 2024 6 15 = "2024061500"`. -/
theorem claim_C5_counterexample :
    today_local 2024 6 15 1410 120 = (2024, 6, 16)
  ∧ (create_zone_payload_at 2024 6 15 1410 120 "example.com." "Native"
        none).rrsets
      = [{ name := "example.com.", rtype := "SOA"
         , records := [("ns1.example.com. hostmaster.example.com. 2024061600 28800 7200 604800 86400", false)]
         , ttl := some 86400 }]
  ∧ ("ns1.example.com. hostmaster.example.com. 2024061600 28800 7200 604800 86400" : String)
      ≠ "ns1.example.com. hostmaster.example.com. "
          ++ strftimeYmd00 2024 6 15 ++ " 28800 7200 604800 86400"
  ∧ strftimeYmd00 2024 6 15 = "2024061500" :=
  ⟨by decide, by decide, by decide, by decide⟩

/-- Claim C5, amended: `create_zone` builds a default SOA record-set whose
content is `ns1.<name> hostmaster.<name> <serial> 28800 7200 604800 86400`
with serial the current *local* date (`date.today()`) formatted `YYYYMMDD`
concatenated with `00`, and submits zone creation with that SOA and the
given nameserver list, defaulting to the empty list when none is given. -/
theorem claim_C5_amended (utcY utcM utcD minuteOfDay : Nat) (tzOffset : Int)
    (name kind : String) (ns : Option (List String)) :
    create_zone_payload_at utcY utcM utcD minuteOfDay tzOffset name kind ns
      = { name := name
        , kind := kind
        , rrsets := [{ name := name, rtype := "SOA"
                     , records := [("ns1." ++ name ++ " hostmaster." ++ name
                          ++ " "
                          ++ (dateYmd
                                (today_local utcY utcM utcD minuteOfDay tzOffset).1
                                (today_local utcY utcM utcD minuteOfDay tzOffset).2.1
                                (today_local utcY utcM utcD minuteOfDay tzOffset).2.2
                              ++ "00")
                          ++ " 28800 7200 604800 86400", false)]
                     , ttl := some 86400 }]
        , nameservers := ns.getD [] }
  ∧ (∀ y m d, strftimeYmd00 y m d = dateYmd y m d ++ "00") :=
  ⟨rfl, fun _ _ _ => rfl⟩

/-- Claim C6: `load_zones` processes the gateways sequentially in configured
order; the aggregate is exactly the concatenation, in order, of the zone
summaries of the gateways whose listing succeeded, and the recorded warnings
are exactly one per failed gateway, naming that server and embedding the
failure — so a failure on one gateway never drops the others, and the
aggregator is a total function (no exception escapes it). -/
theorem claim_C6 (ms : List (Manager × Except String (List RemoteZone))) :
    (load_zones ms).1
      = (ms.filterMap fun p =>
          match p.2 with
          | .ok zs => some (zs.map (zone_summary p.1))
          | .error _ => none).flatten
  ∧ (load_zones ms).2
      = ms.filterMap fun p =>
          match p.2 with
          | .error e =>
            some ("Error loading zones from " ++ p.1.name ++ ": " ++ e)
          | .ok _ => none := by
  induction ms with
  | nil => exact ⟨rfl, rfl⟩
  | cons head tail ih =>
    obtain ⟨m, r⟩ := head
    cases r with
    | ok zs => simp [load_zones, List.filterMap_cons, ih.1, ih.2]
    | error e => simp [load_zones, List.filterMap_cons, ih.1, ih.2]

/-- Claim C7: filtering with the empty search term re-displays the full
loaded zone list unchanged and in original order, and filtering with any
term leaves the loaded `all_zones` collection untouched — only the displayed
table changes. -/
theorem claim_C7 (v : ZonesView) (t : String) :
    (filter_zones v "").all_zones = v.all_zones
  ∧ (filter_zones v "").table = v.all_zones.map render_zone_row
  ∧ (filter_zones v t).all_zones = v.all_zones := by
  have hf : v.all_zones.filter (zone_matches (pyLower "")) = v.all_zones :=
    List.filter_eq_self.mpr (fun a _ => zone_matches_empty_term a)
  refine ⟨rfl, ?_, rfl⟩
  show (v.all_zones.filter (zone_matches (pyLower ""))).map render_zone_row = _
  rw [hf]

/-- Claim C8, counterexample: the source's check is for the suffix
`/api/v1`, not `api/v1` — a URL ending in `api/v1` without a preceding
slash (here `xapi/v1`) already ends with the API path segment as the claim
words it, yet `connect` still appends `/api/v1`, diverging from the claimed
rule (`spec_api_url`). -/
theorem claim_C8_counterexample :
    pyEndsWith "xapi/v1" "api/v1" = true
  ∧ connect_api_url "xapi/v1" = "xapi/v1/api/v1"
  ∧ spec_api_url "xapi/v1" = "xapi/v1" :=
  ⟨by decide, by decide, by decide⟩

/-- Claim C8, amended: `connect` appends `api/v1` exactly when the URL does
not already end with `/api/v1` (the slash-preceded API path), inserting a
separating slash exactly when the URL does not already end with a slash; a
URL already ending with `/api/v1` is left unchanged. -/
theorem claim_C8_amended (url : String) :
    (pyEndsWith url "/api/v1" = true → connect_api_url url = url)
  ∧ (pyEndsWith url "/api/v1" = false → pyEndsWith url "/" = true →
      connect_api_url url = url ++ "api/v1")
  ∧ (pyEndsWith url "/api/v1" = false → pyEndsWith url "/" = false →
      connect_api_url url = url ++ "/api/v1") := by
  refine ⟨?_, ?_, ?_⟩
  · intro h; simp [connect_api_url, h]
  · intro h1 h2; simp [connect_api_url, h1, h2]
  · intro h1 h2; simp [connect_api_url, h1, h2]

/-- Claim C8, witness: the three branches of the amended rule at concrete
URLs. -/
theorem claim_C8_witness :
    (pyEndsWith "http://h/api/v1" "/api/v1" = true
      ∧ connect_api_url "http://h/api/v1" = "http://h/api/v1")
  ∧ (pyEndsWith "http://h/" "/api/v1" = false ∧ pyEndsWith "http://h/" "/" = true
      ∧ connect_api_url "http://h/" = "http://h/" ++ "api/v1")
  ∧ (pyEndsWith "http://h" "/api/v1" = false ∧ pyEndsWith "http://h" "/" = false
      ∧ connect_api_url "http://h" = "http://h" ++ "/api/v1") :=
  ⟨⟨by decide, (claim_C8_amended "http://h/api/v1").1 (by decide)⟩,
   ⟨by decide, by decide, (claim_C8_amended "http://h/").2.1 (by decide) (by decide)⟩,
   ⟨by decide, by decide, (claim_C8_amended "http://h").2.2 (by decide) (by decide)⟩⟩

/-- Claim C9: when the TTL field does not parse as an integer, both record
form handlers reject the submission with a validation error and produce no
form result, so the screen callback receives nothing and no record-set is
submitted; conversely a dismissed form result always carries a TTL the field
parsed to. -/
theorem claim_C9 (name rtype content ttl_str zone_name : String) :
    (pyInt ttl_str = none →
        (create_record_on_button name rtype content ttl_str).isRejected = true
      ∧ (edit_record_on_button content ttl_str).isRejected = true
      ∧ on_create_record_result (Except.ok ()) zone_name
          (create_record_on_button name rtype content ttl_str).toOption = none)
  ∧ (∀ r, create_record_on_button name rtype content ttl_str = .dismissed r →
      pyInt ttl_str = some r.ttl)
  ∧ (∀ r, edit_record_on_button content ttl_str = .dismissed r →
      pyInt ttl_str = some r.ttl) := by
  have hcreate : pyInt ttl_str = none →
      (create_record_on_button name rtype content ttl_str).isRejected = true := by
    intro h
    unfold create_record_on_button
    split
    · rfl
    · rw [h]
      rfl
  have hedit : pyInt ttl_str = none →
      (edit_record_on_button content ttl_str).isRejected = true := by
    intro h
    unfold edit_record_on_button
    split
    · rfl
    · rw [h]
      rfl
  refine ⟨fun h => ⟨hcreate h, hedit h, ?_⟩, fun r hr => ?_, fun r hr => ?_⟩
  · rw [toOption_eq_none_of_isRejected _ (hcreate h)]
    rfl
  · unfold create_record_on_button at hr
    split at hr
    · simp at hr
    · cases hp : pyInt ttl_str with
      | none => rw [hp] at hr; simp at hr
      | some t =>
        rw [hp] at hr
        simp only at hr
        injection hr with h2
        subst h2
        rfl
  · unfold edit_record_on_button at hr
    split at hr
    · simp at hr
    · cases hp : pyInt ttl_str with
      | none => rw [hp] at hr; simp at hr
      | some t =>
        rw [hp] at hr
        simp only at hr
        injection hr with h2
        subst h2
        rfl

/-- Claim C9, witness: submitting TTL `abc` is rejected by both forms with
no form result and no record-set submission. -/
theorem claim_C9_witness :
    (create_record_on_button "www" "A" "1.2.3.4" "abc").isRejected = true
  ∧ (edit_record_on_button "1.2.3.4" "abc").isRejected = true
  ∧ on_create_record_result (Except.ok ()) "example.com."
      (create_record_on_button "www" "A" "1.2.3.4" "abc").toOption = none :=
  (claim_C9 "www" "A" "1.2.3.4" "abc" "example.com.").1 (by decide)

/-- Claim C10: every zone summary produced by `load_zones` has its `id`
equal to its `name` (both are `zone.name`), and both the zone deletion and
the drill-down into the details screen are keyed by that `id`, hence by the
zone's name. -/
theorem claim_C10 (ms : List (Manager × Except String (List RemoteZone)))
    (s : ZoneSummary) (hs : s ∈ (load_zones ms).1) :
    s.id = s.name
  ∧ delete_zone_arg s = s.name
  ∧ details_screen_zone_id s = s.name := by
  induction ms with
  | nil => simp [load_zones] at hs
  | cons head tail ih =>
    obtain ⟨m, r⟩ := head
    cases r with
    | ok zs =>
      simp only [load_zones, List.mem_append] at hs
      rcases hs with h | h
      · obtain ⟨z, _, rfl⟩ := List.mem_map.mp h
        exact ⟨rfl, rfl, rfl⟩
      · exact ih h
    | error e =>
      simp only [load_zones] at hs
      exact ih hs

/-- Claim C10, witness: the summary of a concrete loaded zone, keyed by its
name. -/
theorem claim_C10_witness :
    (zone_summary sampleManager sampleZone).id
      = (zone_summary sampleManager sampleZone).name
  ∧ delete_zone_arg (zone_summary sampleManager sampleZone)
      = (zone_summary sampleManager sampleZone).name
  ∧ details_screen_zone_id (zone_summary sampleManager sampleZone)
      = (zone_summary sampleManager sampleZone).name :=
  claim_C10 [(sampleManager, Except.ok [sampleZone])]
    (zone_summary sampleManager sampleZone) (by simp [load_zones])
